import Mathlib

/-!
Shallow embedding of the pending-assignment resolver and related
operations of the `EvaluationService` class
(`src/webparts/employeeEvak/` service module), together with the
dashboard visibility filter of the pending-assignments dashboard
component.

Modelling conventions:
* TypeScript optional fields (`x?: T`) become `Option T`; an absent
  JavaScript property is `none`.
* The top-level `Id` of a raw assignment is modelled as `Option Int`
  because the code guards it with `typeof it.Id === 'number'`
  (the record may arrive without a resolvable numeric identifier).
  The nested identity-reference `Id` is declared `number` (required)
  in the raw interface, so it is modelled as `Int`; the corresponding
  runtime guard `typeof p.Id === 'number'` in `normalizeUser` is then
  always satisfied.
* The JavaScript truthiness test on a string (`p.EMail`, `it.Status`)
  is false exactly for the empty string and for an absent value, and
  is modelled accordingly.
* Strict equality `a === b` between a possibly-undefined string and a
  string is modelled as equality of `Option String` values
  (`undefined === s` is false for every string `s`).
-/

/-- Structural model of JavaScript `String.prototype.toLowerCase()`
(ASCII lowering, character by character). -/
def jsToLower (s : String) : String := ⟨s.data.map Char.toLower⟩

/-- Role under which the current identity is associated with an
assignment: `export type ReviewerType = "Employee" | "Supervisor" | "Reviewer"`. -/
inductive ReviewerType where
  | Employee
  | Supervisor
  | Reviewer
deriving DecidableEq, Repr

/-- Raw identity reference as returned by the store:
`{ Id: number; EMail?: string; Title?: string }`. -/
structure RawUser where
  Id : Int
  EMail : Option String
  Title : Option String
deriving DecidableEq, Repr

/-- Normalised identity: `IUserInfo { Id: number; Email: string; Title?: string }`. -/
structure IUserInfo where
  Id : Int
  Email : String
  Title : Option String
deriving DecidableEq, Repr

/-- Raw assignment record (`IRawAssignment`), the input shape of the
resolver.  `Id` is `Option Int` (see module comment). -/
structure IRawAssignment where
  Id : Option Int
  Title : String
  ReviewPeriodStart : Option String
  ReviewPeriodEnd : Option String
  Status : Option String
  SelfEvalSubmitted : Option Bool
  SupervisorSubmitted : Option Bool
  ReviewerSubmitted : Option Bool
  Employee : Option RawUser
  Supervisor : Option RawUser
  OptionalReviewer : Option RawUser
  ProposedReviewer : Option RawUser
deriving DecidableEq, Repr

/-- Output shape `IPendingAssignment extends IAssignment { MyRole: ReviewerType }`.
The `Id` field is copied verbatim from the raw record (the preceding
filter guarantees it is present). -/
structure IPendingAssignment where
  Id : Option Int
  Title : String
  ReviewPeriodStart : Option String
  ReviewPeriodEnd : Option String
  Status : Option String
  SelfEvalSubmitted : Option Bool
  SupervisorSubmitted : Option Bool
  ReviewerSubmitted : Option Bool
  Employee : Option IUserInfo
  Supervisor : Option IUserInfo
  OptionalReviewer : Option IUserInfo
  MyRole : ReviewerType
deriving DecidableEq, Repr

/-- The closed-status list: `const doneStatuses = ["complete", "completed", "closed", "archived"]`. -/
def doneStatuses : List String := ["complete", "completed", "closed", "archived"]

/-- Lower-cased email of an identity reference, when the reference is
present and its `EMail` is truthy (present and non-empty); models
`it.X && it.X.EMail ? it.X.EMail.toLowerCase() : undefined`. -/
def emailLowerOpt (p : Option RawUser) : Option String :=
  match p with
  | none => none
  | some u =>
    match u.EMail with
    | none => none
    | some s => if s = "" then none else some (jsToLower s)

/-- First filter pass (line `typeof it.Id === 'number'`): the record
must have a resolvable numeric identifier. -/
def idOk (it : IRawAssignment) : Bool :=
  it.Id.isSome

/-- Identity filter pass: `e === meLower || s === meLower || r === meLower`,
where `e`, `s`, `r` are the lower-cased reference emails (or undefined). -/
def identOk (meLower : String) (it : IRawAssignment) : Bool :=
  emailLowerOpt it.Employee = some meLower
    || emailLowerOpt it.Supervisor = some meLower
    || emailLowerOpt it.OptionalReviewer = some meLower

/-- Status filter pass: `const st = (it.Status || "").toLowerCase();
return doneStatuses.indexOf(st) === -1`.  The only falsy string is `""`,
so `it.Status || ""` is `it.Status.getD ""`. -/
def statusOk (it : IRawAssignment) : Bool :=
  !(doneStatuses.contains (jsToLower (it.Status.getD "")))

/-- Role tagging of a surviving record, by the `if / else if / else`
chain of the map pass: Employee first, Supervisor second, otherwise
Reviewer. -/
def myRole (meLower : String) (it : IRawAssignment) : ReviewerType :=
  if emailLowerOpt it.Employee = some meLower then ReviewerType.Employee
  else if emailLowerOpt it.Supervisor = some meLower then ReviewerType.Supervisor
  else ReviewerType.Reviewer

/-- Reference normalisation in the map pass:
`p && p.EMail && typeof p.Id === 'number' ? { Id: p.Id, Email: p.EMail, Title: p.Title } : undefined`.
The `Id` guard is always satisfied in the typed model (see module comment). -/
def normalizeUser (p : Option RawUser) : Option IUserInfo :=
  match p with
  | none => none
  | some u =>
    match u.EMail with
    | none => none
    | some s => if s = "" then none else some { Id := u.Id, Email := s, Title := u.Title }

/-- The emitted pending-assignment view object of the final map pass. -/
def emitPending (meLower : String) (it : IRawAssignment) : IPendingAssignment :=
  { Id := it.Id
    Title := it.Title
    ReviewPeriodStart := it.ReviewPeriodStart
    ReviewPeriodEnd := it.ReviewPeriodEnd
    Status := it.Status
    SelfEvalSubmitted := it.SelfEvalSubmitted
    SupervisorSubmitted := it.SupervisorSubmitted
    ReviewerSubmitted := it.ReviewerSubmitted
    Employee := normalizeUser it.Employee
    Supervisor := normalizeUser it.Supervisor
    OptionalReviewer := normalizeUser it.OptionalReviewer
    MyRole := myRole meLower it }

/-- The pure tail of `getPendingAssignmentsForUser`: given the current
user's email and the fetched raw items, apply the Id filter, the
identity filter, the status filter and the role-tagging map, in that
order (`meLower = me.Email.toLowerCase()`). -/
def resolvePending (meEmail : String) (rawItems : List IRawAssignment) :
    List IPendingAssignment :=
  let meLower := jsToLower meEmail
  ((((rawItems.filter idOk).filter (identOk meLower)).filter statusOk).map
    (emitPending meLower))

/-- Update payload built by `markSubmitted`: each field is `none` when
the corresponding property is left out of the payload object. -/
structure MarkSubmittedPayload where
  SelfEvalSubmitted : Option Bool
  SupervisorSubmitted : Option Bool
  ReviewerSubmitted : Option Bool
  Status : Option String
deriving DecidableEq, Repr

/-- Payload construction of `markSubmitted(assignmentId, role)`: three
guarded flag assignments followed by `payload.Status = "In Progress"`.
The payload does not depend on the assignment id, which is only used to
address the update call. -/
def markSubmittedPayload (role : ReviewerType) : MarkSubmittedPayload :=
  let p0 : MarkSubmittedPayload :=
    { SelfEvalSubmitted := none, SupervisorSubmitted := none,
      ReviewerSubmitted := none, Status := none }
  let p1 := if role = ReviewerType.Employee then
    { p0 with SelfEvalSubmitted := some true } else p0
  let p2 := if role = ReviewerType.Supervisor then
    { p1 with SupervisorSubmitted := some true } else p1
  let p3 := if role = ReviewerType.Reviewer then
    { p2 with ReviewerSubmitted := some true } else p2
  { p3 with Status := some "In Progress" }

/-- Visibility filter of the pending-assignments dashboard: hide an
assignment whose submission flag for the current role is truthy
(`a.MyRole === "Employee" && a.SelfEvalSubmitted`, etc.). -/
def dashboardKeeps (a : IPendingAssignment) : Bool :=
  if a.MyRole = ReviewerType.Employee && a.SelfEvalSubmitted = some true then false
  else if a.MyRole = ReviewerType.Supervisor && a.SupervisorSubmitted = some true then false
  else if a.MyRole = ReviewerType.Reviewer && a.ReviewerSubmitted = some true then false
  else true

/-- Measurement used to state the spec's output property (spec wording,
not source): the number of relationship fields of an output item whose
email equals the query email case-insensitively. -/
def specMatchCount (meEmail : String) (p : IPendingAssignment) : Nat :=
  ([p.Employee, p.Supervisor, p.OptionalReviewer].countP
    (fun r => match r with
      | some u => jsToLower u.Email == jsToLower meEmail
      | none => false))

/-- Sample record matching the spec example: Id 1, closed status, the
query identity as employee. -/
def recClosedEmp : IRawAssignment :=
  { Id := some 1, Title := "A", ReviewPeriodStart := none, ReviewPeriodEnd := none,
    Status := some "Closed", SelfEvalSubmitted := none, SupervisorSubmitted := none,
    ReviewerSubmitted := none,
    Employee := some { Id := 7, EMail := some "a@x.com", Title := none },
    Supervisor := none, OptionalReviewer := none, ProposedReviewer := none }

/-- Sample record matching the spec example: Id 2, no status, the query
identity as supervisor. -/
def recSup : IRawAssignment :=
  { Id := some 2, Title := "B", ReviewPeriodStart := none, ReviewPeriodEnd := none,
    Status := none, SelfEvalSubmitted := none, SupervisorSubmitted := none,
    ReviewerSubmitted := none,
    Employee := none,
    Supervisor := some { Id := 8, EMail := some "a@x.com", Title := none },
    OptionalReviewer := none, ProposedReviewer := none }

/-- Expected output item for `recSup` under query email `a@x.com`. -/
def pendSup : IPendingAssignment :=
  { Id := some 2, Title := "B", ReviewPeriodStart := none, ReviewPeriodEnd := none,
    Status := none, SelfEvalSubmitted := none, SupervisorSubmitted := none,
    ReviewerSubmitted := none, Employee := none,
    Supervisor := some { Id := 8, Email := "a@x.com", Title := none },
    OptionalReviewer := none, MyRole := ReviewerType.Supervisor }

/-- Sample record whose employee and supervisor references both carry
the query email (up to case). -/
def recBoth : IRawAssignment :=
  { Id := some 3, Title := "C", ReviewPeriodStart := none, ReviewPeriodEnd := none,
    Status := none, SelfEvalSubmitted := none, SupervisorSubmitted := none,
    ReviewerSubmitted := none,
    Employee := some { Id := 7, EMail := some "a@x.com", Title := none },
    Supervisor := some { Id := 8, EMail := some "A@X.com", Title := none },
    OptionalReviewer := none, ProposedReviewer := none }

/-- Expected output item for `recBoth` under query email `a@x.com`. -/
def pendBoth : IPendingAssignment :=
  { Id := some 3, Title := "C", ReviewPeriodStart := none, ReviewPeriodEnd := none,
    Status := none, SelfEvalSubmitted := none, SupervisorSubmitted := none,
    ReviewerSubmitted := none,
    Employee := some { Id := 7, Email := "a@x.com", Title := none },
    Supervisor := some { Id := 8, Email := "A@X.com", Title := none },
    OptionalReviewer := none, MyRole := ReviewerType.Employee }

/-- Sample record with no resolvable identifier, but matching email and
open status. -/
def recNoId : IRawAssignment :=
  { Id := none, Title := "E", ReviewPeriodStart := none, ReviewPeriodEnd := none,
    Status := none, SelfEvalSubmitted := none, SupervisorSubmitted := none,
    ReviewerSubmitted := none,
    Employee := some { Id := 7, EMail := some "a@x.com", Title := none },
    Supervisor := none, OptionalReviewer := none, ProposedReviewer := none }

/-- Sample record whose employee reference carries an empty-string
email. -/
def recEmptyEmail : IRawAssignment :=
  { Id := some 4, Title := "F", ReviewPeriodStart := none, ReviewPeriodEnd := none,
    Status := none, SelfEvalSubmitted := none, SupervisorSubmitted := none,
    ReviewerSubmitted := none,
    Employee := some { Id := 9, EMail := some "", Title := none },
    Supervisor := none, OptionalReviewer := none, ProposedReviewer := none }

/-- Sample record whose employee reference carries a mixed-case email. -/
def recJane : IRawAssignment :=
  { Id := some 5, Title := "G", ReviewPeriodStart := none, ReviewPeriodEnd := none,
    Status := none, SelfEvalSubmitted := none, SupervisorSubmitted := none,
    ReviewerSubmitted := none,
    Employee := some { Id := 10, EMail := some "Jane@Co.com", Title := none },
    Supervisor := none, OptionalReviewer := none, ProposedReviewer := none }

/-- Sample record matching as employee whose self-evaluation flag is
already set. -/
def recFlagged : IRawAssignment :=
  { Id := some 6, Title := "H", ReviewPeriodStart := none, ReviewPeriodEnd := none,
    Status := some "In Progress", SelfEvalSubmitted := some true,
    SupervisorSubmitted := none, ReviewerSubmitted := none,
    Employee := some { Id := 7, EMail := some "a@x.com", Title := none },
    Supervisor := none, OptionalReviewer := none, ProposedReviewer := none }

lemma emailLowerOpt_eq_some {p : Option RawUser} {m : String} :
    emailLowerOpt p = some m ↔
      ∃ u s, p = some u ∧ u.EMail = some s ∧ s ≠ "" ∧ jsToLower s = m := by
  cases p with
  | none => simp [emailLowerOpt]
  | some u =>
    cases hE : u.EMail with
    | none => simp [emailLowerOpt, hE]
    | some s =>
      by_cases hs : s = "" <;>
        simp [emailLowerOpt, hE, hs, eq_comm]

lemma mem_resolvePending {q : String} {items : List IRawAssignment}
    {p : IPendingAssignment} :
    p ∈ resolvePending q items ↔
      ∃ it, it ∈ items ∧ idOk it = true ∧ identOk (jsToLower q) it = true ∧
        statusOk it = true ∧ p = emitPending (jsToLower q) it := by
  simp only [resolvePending, List.mem_map, List.mem_filter]
  constructor
  · rintro ⟨it, ⟨⟨⟨hmem, hid⟩, hident⟩, hstatus⟩, hemit⟩
    exact ⟨it, hmem, hid, hident, hstatus, hemit.symm⟩
  · rintro ⟨it, hmem, hid, hident, hstatus, hemit⟩
    exact ⟨it, ⟨⟨⟨hmem, hid⟩, hident⟩, hstatus⟩, hemit.symm⟩

/-- C3: the status filter drops a record if and only if its status,
lower-cased, is one of `{complete, completed, closed, archived}`; a
record whose status is missing or blank always passes. -/
theorem statusFilter_drops_iff_closed :
    ∀ it : IRawAssignment,
      (statusOk it = false ↔ ∃ s, it.Status = some s ∧ jsToLower s ∈ doneStatuses)
      ∧ ((it.Status = none ∨ it.Status = some "") → statusOk it = true) := by
  intro it
  constructor
  · cases hS : it.Status with
    | none =>
      simp [statusOk, hS, doneStatuses, jsToLower]
    | some s =>
      simp only [statusOk, hS, Option.getD_some, Bool.not_eq_false']
      constructor
      · intro h; exact ⟨s, rfl, List.elem_iff.mp h⟩
      · rintro ⟨s2, hs2, h⟩
        cases Option.some.injEq s s2 ▸ hs2
        exact List.elem_iff.mpr h
  · rintro (hS | hS) <;> simp [statusOk, hS, doneStatuses, jsToLower]

/-- C3 witness: a record with an absent status passes the status
filter. -/
theorem statusFilter_drops_iff_closed_witness :
    statusOk recSup = true :=
  (statusFilter_drops_iff_closed recSup).2 (Or.inl rfl)

/-- C5: a record without a resolvable numeric identifier is silently
excluded before the identity and status filters — filtering the input
down to the records with an identifier does not change the output, and
consing a record with an absent identifier onto the input leaves the
output unchanged, whatever its emails and status; an empty input yields
an empty output. -/
theorem resolvePending_drops_missing_id :
    (∀ q items, resolvePending q items =
        resolvePending q (items.filter (fun it => it.Id.isSome)))
    ∧ (∀ q items it, it.Id = none →
        resolvePending q (it :: items) = resolvePending q items)
    ∧ (∀ q, resolvePending q [] = []) := by
  refine ⟨?_, ?_, ?_⟩
  · intro q items
    have h2 : (items.filter (fun it => it.Id.isSome)).filter idOk =
        items.filter idOk := by
      rw [List.filter_filter]
      exact List.filter_congr (fun a _ => by simp [idOk, Bool.and_self])
    simp only [resolvePending]
    rw [h2]
  · intro q items it hid
    simp [resolvePending, List.filter_cons, idOk, hid]
  · intro q
    rfl

/-- C5 witness: a record with an absent identifier but matching email
and open status contributes nothing, and the empty input gives the
empty output. -/
theorem resolvePending_drops_missing_id_witness :
    resolvePending "a@x.com" [recNoId] = resolvePending "a@x.com" [] :=
  resolvePending_drops_missing_id.2.1 "a@x.com" [] recNoId rfl

/-- C7: on the spec's example input (item 1 closed with the query
identity as employee, item 2 status-less with the query identity as
supervisor), the resolver outputs exactly the one item with Id 2 and
role Supervisor; item 1 is excluded by the status filter. -/
theorem resolvePending_spec_example :
    resolvePending "a@x.com" [recClosedEmp, recSup] = [pendSup]
    ∧ pendSup.Id = some 2
    ∧ pendSup.MyRole = ReviewerType.Supervisor
    ∧ statusOk recClosedEmp = false := by
  refine ⟨by decide, rfl, rfl, by decide⟩

/-- C8: the resolver is a pure function of its two arguments — two
calls on equal inputs produce equal outputs. -/
theorem resolvePending_deterministic :
    ∀ (q1 q2 : String) (items1 items2 : List IRawAssignment),
      q1 = q2 → items1 = items2 →
      resolvePending q1 items1 = resolvePending q2 items2 := by
  intro q1 q2 items1 items2 hq hi
  rw [hq, hi]

/-- C8 witness: two runs on the same concrete input agree. -/
theorem resolvePending_deterministic_witness :
    resolvePending "a@x.com" [recClosedEmp, recSup] =
      resolvePending "a@x.com" [recClosedEmp, recSup] :=
  resolvePending_deterministic "a@x.com" "a@x.com" [recClosedEmp, recSup]
    [recClosedEmp, recSup] rfl rfl

/-- C10: the `markSubmitted` payload sets exactly the one submission
flag matching the role to true, omits the other two flags, and always
sets Status to `In Progress`. -/
theorem markSubmittedPayload_shape :
    markSubmittedPayload ReviewerType.Employee =
      { SelfEvalSubmitted := some true, SupervisorSubmitted := none,
        ReviewerSubmitted := none, Status := some "In Progress" }
    ∧ markSubmittedPayload ReviewerType.Supervisor =
      { SelfEvalSubmitted := none, SupervisorSubmitted := some true,
        ReviewerSubmitted := none, Status := some "In Progress" }
    ∧ markSubmittedPayload ReviewerType.Reviewer =
      { SelfEvalSubmitted := none, SupervisorSubmitted := none,
        ReviewerSubmitted := some true, Status := some "In Progress" }
    ∧ (∀ role, (markSubmittedPayload role).Status = some "In Progress") := by
  refine ⟨rfl, rfl, rfl, ?_⟩
  intro role
  cases role <;> rfl

lemma statusOk_true_not_done {it : IRawAssignment} {s : String}
    (hSt : it.Status = some s) (h : statusOk it = true) :
    jsToLower s ∉ doneStatuses := by
  intro hmem
  simp only [statusOk, hSt, Option.getD_some, Bool.not_eq_true'] at h
  have h2 : doneStatuses.elem (jsToLower s) = false := h
  have h3 : doneStatuses.elem (jsToLower s) = true := List.elem_iff.mpr hmem
  rw [h2] at h3
  cases h3

lemma specMatchCount_pos_of_field {q : String} {p : IPendingAssignment} {u : IUserInfo}
    (hf : p.Employee = some u ∨ p.Supervisor = some u ∨ p.OptionalReviewer = some u)
    (hlow : jsToLower u.Email = jsToLower q) :
    1 ≤ specMatchCount q p := by
  have hmem : (some u : Option IUserInfo) ∈
      [p.Employee, p.Supervisor, p.OptionalReviewer] := by
    rcases hf with h | h | h <;> simp [h]
  have hpred : (fun r : Option IUserInfo => match r with
      | some u2 => jsToLower u2.Email == jsToLower q
      | none => false) (some u) = true := by
    simpa using hlow
  unfold specMatchCount
  exact List.countP_pos_iff.mpr ⟨some u, hmem, hpred⟩

lemma normalizeUser_of_mail {f : Option RawUser} {u : RawUser} {s : String}
    (hf : f = some u) (hm : u.EMail = some s) (hne : s ≠ "") :
    normalizeUser f = some { Id := u.Id, Email := s, Title := u.Title } := by
  simp [normalizeUser, hf, hm, hne]

/-- C1 counterexample: on a record whose employee and supervisor emails
both equal the query email case-insensitively, the resolver emits an
item with two matching relationship fields, not exactly one. -/
theorem resolvePending_two_matches_cex :
    resolvePending "a@x.com" [recBoth] = [pendBoth]
    ∧ specMatchCount "a@x.com" pendBoth = 2 := by
  exact ⟨by decide, by decide⟩

/-- C1 (amended): every item in the resolver's output has a status that
is absent or (lower-cased) not in the closed set, and at least one of
its relationship fields carries an email equal to the query email
case-insensitively. -/
theorem resolvePending_output_invariant :
    ∀ (q : String) (items : List IRawAssignment) (p : IPendingAssignment),
      p ∈ resolvePending q items →
      (∀ s, p.Status = some s → jsToLower s ∉ doneStatuses)
      ∧ 1 ≤ specMatchCount q p := by
  intro q items p hp
  obtain ⟨it, hmem, hid, hident, hstatus, rfl⟩ := mem_resolvePending.mp hp
  refine ⟨?_, ?_⟩
  · intro s hs
    exact statusOk_true_not_done hs hstatus
  · simp only [identOk, Bool.or_eq_true, decide_eq_true_eq] at hident
    rcases hident with (h | h) | h
    · obtain ⟨u, s, hf, hm, hne, hlow⟩ := emailLowerOpt_eq_some.mp h
      exact specMatchCount_pos_of_field
        (Or.inl (normalizeUser_of_mail hf hm hne)) hlow
    · obtain ⟨u, s, hf, hm, hne, hlow⟩ := emailLowerOpt_eq_some.mp h
      exact specMatchCount_pos_of_field
        (Or.inr (Or.inl (normalizeUser_of_mail hf hm hne))) hlow
    · obtain ⟨u, s, hf, hm, hne, hlow⟩ := emailLowerOpt_eq_some.mp h
      exact specMatchCount_pos_of_field
        (Or.inr (Or.inr (normalizeUser_of_mail hf hm hne))) hlow

/-- C1 witness: the spec-example record with the query identity as
supervisor yields an output item with open status and one match. -/
theorem resolvePending_output_invariant_witness :
    (∀ s, pendSup.Status = some s → jsToLower s ∉ doneStatuses)
    ∧ 1 ≤ specMatchCount "a@x.com" pendSup :=
  resolvePending_output_invariant "a@x.com" [recClosedEmp, recSup] pendSup
    (by decide)

/-- C2: role tagging follows the fixed precedence Employee first,
Supervisor second, otherwise Reviewer, and every output item carries
the role so computed from its originating record; in particular a
surviving record whose employee and supervisor emails both equal the
query email is tagged Employee. -/
theorem myRole_precedence :
    (∀ (m : String) (it : IRawAssignment),
      emailLowerOpt it.Employee = some m → myRole m it = ReviewerType.Employee)
    ∧ (∀ (m : String) (it : IRawAssignment),
      emailLowerOpt it.Employee ≠ some m → emailLowerOpt it.Supervisor = some m →
      myRole m it = ReviewerType.Supervisor)
    ∧ (∀ (m : String) (it : IRawAssignment),
      emailLowerOpt it.Employee ≠ some m → emailLowerOpt it.Supervisor ≠ some m →
      myRole m it = ReviewerType.Reviewer)
    ∧ (∀ (q : String) (items : List IRawAssignment) (p : IPendingAssignment),
      p ∈ resolvePending q items →
      ∃ it, it ∈ items ∧ p.MyRole = myRole (jsToLower q) it ∧
        (emailLowerOpt it.Employee = some (jsToLower q) →
          emailLowerOpt it.Supervisor = some (jsToLower q) →
          p.MyRole = ReviewerType.Employee)) := by
  refine ⟨?_, ?_, ?_, ?_⟩
  · intro m it h; simp [myRole, h]
  · intro m it h1 h2; simp [myRole, h1, h2]
  · intro m it h1 h2; simp [myRole, h1, h2]
  · intro q items p hp
    obtain ⟨it, hmem, _, _, _, rfl⟩ := mem_resolvePending.mp hp
    refine ⟨it, hmem, rfl, ?_⟩
    intro hE _
    simp [emitPending, myRole, hE]

/-- C2 witness: on the record whose employee and supervisor both carry
the query email, the role falls to Employee. -/
theorem myRole_precedence_witness :
    myRole "a@x.com" recBoth = ReviewerType.Employee :=
  myRole_precedence.1 "a@x.com" recBoth (by decide)

/-- C4 counterexample: a record whose employee reference is present
with the empty-string email, queried with the empty query email, has a
reference email equal to the query email (case-insensitively), yet the
identity filter rejects the record. -/
theorem identFilter_empty_email_cex :
    recEmptyEmail.Employee = some { Id := 9, EMail := some "", Title := none }
    ∧ jsToLower "" = jsToLower ""
    ∧ identOk (jsToLower "") recEmptyEmail = false
    ∧ resolvePending "" [recEmptyEmail] = [] := by
  exact ⟨rfl, rfl, by decide, by decide⟩

/-- C4 (amended): the identity filter keeps a record if and only if at
least one of its employee, supervisor, or optional-reviewer references
is present with a non-empty email equal to the query email under
case-insensitive comparison; a record all of whose references are
absent never passes. -/
theorem identFilter_keeps_iff :
    (∀ (q : String) (it : IRawAssignment),
      identOk (jsToLower q) it = true ↔
        ∃ u s,
          (it.Employee = some u ∨ it.Supervisor = some u ∨
            it.OptionalReviewer = some u)
          ∧ u.EMail = some s ∧ s ≠ "" ∧ jsToLower s = jsToLower q)
    ∧ (∀ (q : String) (it : IRawAssignment),
      it.Employee = none → it.Supervisor = none → it.OptionalReviewer = none →
      identOk (jsToLower q) it = false) := by
  constructor
  · intro q it
    simp only [identOk, Bool.or_eq_true, decide_eq_true_eq]
    constructor
    · rintro ((h | h) | h) <;>
        (obtain ⟨u, s, hf, hm, hne, hlow⟩ := emailLowerOpt_eq_some.mp h)
      · exact ⟨u, s, Or.inl hf, hm, hne, hlow⟩
      · exact ⟨u, s, Or.inr (Or.inl hf), hm, hne, hlow⟩
      · exact ⟨u, s, Or.inr (Or.inr hf), hm, hne, hlow⟩
    · rintro ⟨u, s, (hf | hf | hf), hm, hne, hlow⟩
      · exact Or.inl (Or.inl (emailLowerOpt_eq_some.mpr ⟨u, s, hf, hm, hne, hlow⟩))
      · exact Or.inl (Or.inr (emailLowerOpt_eq_some.mpr ⟨u, s, hf, hm, hne, hlow⟩))
      · exact Or.inr (emailLowerOpt_eq_some.mpr ⟨u, s, hf, hm, hne, hlow⟩)
  · intro q it h1 h2 h3
    simp [identOk, emailLowerOpt, h1, h2, h3]

/-- C4 witness: the claim's case-insensitivity example — a reference
email `Jane@Co.com` matches the query email `jane@co.com`. -/
theorem identFilter_keeps_iff_witness :
    identOk (jsToLower "jane@co.com") recJane = true :=
  (identFilter_keeps_iff.1 "jane@co.com" recJane).mpr
    ⟨{ Id := 10, EMail := some "Jane@Co.com", Title := none }, "Jane@Co.com",
      Or.inl rfl, rfl, by decide, by decide⟩

/-- C6: the resolver's output is exactly the order-preserving map of
the view constructor over the sub-list of input records surviving the
three filters; in particular the output `Id` sequence is a sub-sequence
of the input `Id` sequence. -/
theorem resolvePending_order_preserving :
    ∀ (q : String) (items : List IRawAssignment),
      resolvePending q items =
        (items.filter (fun it =>
          idOk it && identOk (jsToLower q) it && statusOk it)).map
          (emitPending (jsToLower q))
      ∧ List.Sublist ((resolvePending q items).map (fun p => p.Id))
          (items.map (fun it => it.Id)) := by
  intro q items
  have hfil : ((items.filter idOk).filter (identOk (jsToLower q))).filter statusOk =
      items.filter (fun it =>
        idOk it && identOk (jsToLower q) it && statusOk it) := by
    rw [List.filter_filter, List.filter_filter]
    refine List.filter_congr (fun a _ => ?_)
    cases hA : idOk a <;> cases hB : identOk (jsToLower q) a <;>
      cases hC : statusOk a <;> simp [hA, hB, hC]
  have hmain : resolvePending q items =
      (items.filter (fun it =>
        idOk it && identOk (jsToLower q) it && statusOk it)).map
        (emitPending (jsToLower q)) := by
    simp only [resolvePending]
    rw [hfil]
  refine ⟨hmain, ?_⟩
  rw [hmain, List.map_map]
  have hids : (items.filter (fun it =>
      idOk it && identOk (jsToLower q) it && statusOk it)).map
        ((fun p : IPendingAssignment => p.Id) ∘ emitPending (jsToLower q)) =
      (items.filter (fun it =>
        idOk it && identOk (jsToLower q) it && statusOk it)).map
        (fun it => it.Id) := rfl
  rw [hids]
  exact (List.filter_sublist items).map (fun it => it.Id)

/-- C9: the resolver does not consult the three submission flags — any
input record passing the Id, identity and status filters appears in the
output with all three flags copied through unchanged; hiding an item
whose flag for its tagged role is set is done by the dashboard filter
instead. -/
theorem resolvePending_ignores_flags :
    (∀ (q : String) (items : List IRawAssignment) (it : IRawAssignment),
      it ∈ items → idOk it = true → identOk (jsToLower q) it = true →
      statusOk it = true →
      emitPending (jsToLower q) it ∈ resolvePending q items
      ∧ (emitPending (jsToLower q) it).SelfEvalSubmitted = it.SelfEvalSubmitted
      ∧ (emitPending (jsToLower q) it).SupervisorSubmitted = it.SupervisorSubmitted
      ∧ (emitPending (jsToLower q) it).ReviewerSubmitted = it.ReviewerSubmitted)
    ∧ (∀ p : IPendingAssignment,
      p.MyRole = ReviewerType.Employee → p.SelfEvalSubmitted = some true →
      dashboardKeeps p = false) := by
  constructor
  · intro q items it hmem hid hident hstatus
    exact ⟨mem_resolvePending.mpr ⟨it, hmem, hid, hident, hstatus, rfl⟩,
      rfl, rfl, rfl⟩
  · intro p h1 h2
    simp [dashboardKeeps, h1, h2]

/-- C9 witness: a record matching as employee whose self-evaluation
flag is already true still appears in the resolver's output with the
flag intact, while the dashboard filter hides it. -/
theorem resolvePending_ignores_flags_witness :
    emitPending (jsToLower "a@x.com") recFlagged ∈
      resolvePending "a@x.com" [recFlagged]
    ∧ (emitPending (jsToLower "a@x.com") recFlagged).SelfEvalSubmitted = some true
    ∧ dashboardKeeps (emitPending (jsToLower "a@x.com") recFlagged) = false :=
  ⟨(resolvePending_ignores_flags.1 "a@x.com" [recFlagged] recFlagged
      (by decide) (by decide) (by decide) (by decide)).1,
    by decide,
    resolvePending_ignores_flags.2 (emitPending (jsToLower "a@x.com") recFlagged)
      (by decide) (by decide)⟩
